import Mathlib

/-!
Shallow embedding of the OIDC authorization controller
(`src/src/modules/auth/auth.controller.ts`).

The controller's four HTTP handlers (`getAuth`, `getLogin`, `postLogin`,
`getRegister`) are translated into pure Lean functions.  The Express session
object is threaded explicitly as a `SessionState` value: every handler returns
the session it leaves behind together with its outcome, so mutations that
happen before a thrown exception are visible in the model exactly as they are
in the running program.  External collaborators (client registry, account
service, JOSE signer) are passed in as an `ExternalServices` record of
`Except`-valued functions.  JavaScript truthiness of optional strings
(`undefined` and `""` are falsy) is modelled by `jsTruthy`.
-/

/-- JavaScript truthiness of an optional string value: `undefined`/absent and
the empty string are falsy, every other string is truthy. -/
def jsTruthy : Option String → Bool
  | none => false
  | some s => s != ""

/-- Whether an `Except` value is an error (a thrown exception in the source). -/
def exceptIsError {ε α : Type} : Except ε α → Bool
  | .error _ => true
  | .ok _ => false

/-- OAuth2/OIDC protocol error codes (`Oauth2AndOidcErrorsEnum`); the
controller uses `unauthorized_client` and `invalid_request`. -/
inductive Oauth2AndOidcErrorsEnum where
  | invalid_request
  | unauthorized_client
  | access_denied
  deriving DecidableEq, Repr

/-- The required authorization-request parameter an OIDC error points at
(`AuthRequestRequiredParamters`). -/
inductive AuthRequestRequiredParamters where
  | client_id
  | redirect_uri
  | scope
  | response_type
  deriving DecidableEq, Repr

/-- An `OidcBadRequestException`: a protocol error code plus the offending
request parameter. -/
structure OidcError where
  error : Oauth2AndOidcErrorsEnum
  parameter : AuthRequestRequiredParamters
  deriving DecidableEq, Repr

/-- A NestJS `UnauthorizedException` payload as thrown by `postLogin`:
`{category, message, original_error?}`. -/
structure AuthError where
  category : String
  message : String
  original_error : Option String
  deriving DecidableEq, Repr

/-- The three OAuth2 response-type values (`ResponseTypeEnum`). -/
inductive ResponseTypeEnum where
  | code
  | id_token
  | token
  deriving DecidableEq, Repr

/-- The `prompt` parameter values (`AuthPrompt`); the controller branches on
`AuthPrompt.create`. -/
inductive AuthPrompt where
  | none
  | login
  | consent
  | select_account
  | create
  deriving DecidableEq, Repr

/-- Scope values are carried around opaquely by the controller; none of its
logic inspects them, so they are modelled as strings. -/
abbrev ScopeEnum := String

/-- The authenticated account returned by `accountsService.loginWithEmail`;
the controller only forwards it to the signer, so it is opaque here. -/
abbrev Account := String

/-- Registered client metadata as the controller reads it: `redirect_uris` is
a single comma-separated string, split with `split(',')` in `getAuth`. -/
structure Client where
  client_id : String
  redirect_uris : String
  deriving DecidableEq, Repr

/-- The `InteractionModel` stored on the session by `getAuth` and mutated by
`postLogin`: the validated request parameters plus accumulated per-step state
(attempt counter, client IP, issued tokens).  Optional values are `Option`s;
`loginAttempts = 0` stands for a missing/falsy counter. -/
structure InteractionModel where
  loginAttempts : Nat
  clientIp : String
  client : Option Client
  client_id : String
  redirect_uri : String
  scope : List ScopeEnum
  response_type : Option (List ResponseTypeEnum)
  state : Option String
  response_mode : Option String
  nonce : Option String
  display : Option String
  prompt : Option AuthPrompt
  max_age : Option Nat
  ui_locales : Option String
  id_token_hint : Option String
  login_hint : Option String
  acr_values : Option String
  code : Option String
  id_token : Option String
  access_token : Option String
  deriving DecidableEq, Repr

/-- An interaction with every field absent: the basis for the
`{loginAttempts: 1}` object literal in `getAuth`'s else-branch. -/
def emptyInteraction : InteractionModel :=
  { loginAttempts := 0, clientIp := "", client := none, client_id := ""
    redirect_uri := "", scope := [], response_type := none, state := none
    response_mode := none, nonce := none, display := none, prompt := none
    max_age := none, ui_locales := none, id_token_hint := none
    login_hint := none, acr_values := none, code := none, id_token := none
    access_token := none }

/-- The browser session object: the pending interaction plus the email and
password `postLogin` stores for prefill. -/
structure SessionState where
  interaction : Option InteractionModel := none
  email : Option String := none
  password : Option String := none
  deriving DecidableEq, Repr

/-- The `POST /auth/login` body (`LoginDto`). -/
structure LoginDto where
  email : Option String := none
  password : Option String := none
  deriving DecidableEq, Repr

/-- The `LoginResponseDto` assembled by `postLogin`: the grant's optional
code, tokens and echoed state/nonce. -/
structure LoginResponseDto where
  code : Option String := none
  access_token : Option String := none
  id_token : Option String := none
  state : Option String := none
  nonce : Option String := none
  deriving DecidableEq, Repr

/-- The external collaborators the controller awaits: the client registry
(`clientsService.findOne`), the credential verifier
(`accountsService.loginWithEmail`) and the token signer
(`joseService.createIdToken` / `createAccessToken`).  `Except.error` carries
the thrown error's message. -/
structure ExternalServices where
  findOne : String → Except String (Option Client)
  loginWithEmail : String → String → Except String Account
  createIdToken : Account → Option Client → List ScopeEnum → Except String String
  createAccessToken : Account → Option Client → Except String String

/-- The query parameters of `GET /auth` after the validation pipes. -/
structure GetAuthParams where
  client_id : String
  redirect_uri : String
  scope : List ScopeEnum
  response_type : List ResponseTypeEnum
  state : Option String := none
  response_mode : Option String := none
  nonce : Option String := none
  display : Option String := none
  prompt : Option AuthPrompt := none
  max_age : Option Nat := none
  ui_locales : Option String := none
  id_token_hint : Option String := none
  login_hint : Option String := none
  acr_values : Option String := none

/-- Splitting a character list at every comma, keeping empty pieces:
the recursion behind `jsSplitComma`. -/
def splitCommaList : List Char → List String
  | [] => [""]
  | c :: cs =>
    match splitCommaList cs with
    | [] => [""]
    | s :: rest =>
      if c = ',' then "" :: s :: rest
      else String.mk (c :: s.data) :: rest

/-- JavaScript `s.split(',')` as `getAuth` uses it on `redirect_uris`: the
string's pieces between commas, in order, empty pieces kept, and `[""]` for
the empty string.  (Defined by structural recursion on the characters so that
it evaluates; `String.splitOn` agrees on every input but does not reduce.) -/
def jsSplitComma (s : String) : List String := splitCommaList s.data

/-- The error `getAuth` throws when the client lookup errors or finds
nothing: `OidcBadRequestException(unauthorized_client, client_id)`. -/
def noClientFoundError : OidcError :=
  { error := .unauthorized_client, parameter := .client_id }

/-- The error `getAuth` throws on a redirect-URI mismatch:
`OidcBadRequestException(invalid_request, redirect_uri)`. -/
def invalidRedirectUriError : OidcError :=
  { error := .invalid_request, parameter := .redirect_uri }

/-- The session update of `getAuth` (the "Save the session for login or
register" step, controller lines 235-261).  If an interaction exists it is
copied, otherwise `{loginAttempts: 1}` is installed; then the whole
interaction is replaced by a fresh object.  The fresh object's counter is the
value of the JavaScript expression `loginAttempts ? loginAttempts++ : 1`: the
post-increment yields the OLD counter (the incremented copy is discarded when
`session.interaction` is reassigned), so a truthy counter is carried over
unchanged and a falsy one becomes 1. -/
def beginInteraction (client : Client) (clientIp : Option String)
    (p : GetAuthParams) (session : SessionState) : SessionState :=
  let existing : InteractionModel :=
    match session.interaction with
    | some i => i
    | none => { emptyInteraction with loginAttempts := 1 }
  let interaction : InteractionModel :=
    { loginAttempts := if existing.loginAttempts != 0 then existing.loginAttempts else 1
      clientIp := clientIp.getD ""
      client := some client
      client_id := p.client_id
      redirect_uri := p.redirect_uri
      scope := p.scope
      response_type := some p.response_type
      state := p.state
      response_mode := p.response_mode
      nonce := p.nonce
      display := p.display
      prompt := p.prompt
      max_age := p.max_age
      ui_locales := p.ui_locales
      id_token_hint := p.id_token_hint
      login_hint := p.login_hint
      acr_values := p.acr_values
      code := none
      id_token := none
      access_token := none }
  { session with interaction := some interaction }

/-- `GET /auth` (`getAuth`): resolve the client (any lookup error or a null
result throws `noClientFoundError`), check the request's `redirect_uri`
against the comma-split registered list with exact string equality (the
JavaScript `find` result is falsy when no entry matches, and also when the
matching entry is the empty string), then save the interaction on the session
and redirect to `/auth/register` when `prompt == create`, else to
`/auth/login`.  Returns the session left behind and either the thrown
`OidcError` or the redirect target. -/
def getAuth (svc : ExternalServices) (clientIp : Option String)
    (p : GetAuthParams) (session : SessionState) :
    SessionState × Except OidcError String :=
  match svc.findOne p.client_id with
  | .error _ => (session, .error noClientFoundError)
  | .ok none => (session, .error noClientFoundError)
  | .ok (some client) =>
    let redirect_uris := jsSplitComma client.redirect_uris
    let isRedirectUri := redirect_uris.find? fun uri => p.redirect_uri == uri
    if !(jsTruthy isRedirectUri) then
      (session, .error invalidRedirectUriError)
    else
      let session := beginInteraction client clientIp p session
      if p.prompt == some AuthPrompt.create then (session, .ok "/auth/register")
      else (session, .ok "/auth/login")

/-- The data handed to the `login` view by `GET /auth/login`. -/
structure LoginView where
  email : String
  password : String
  postUri : String
  interaction : InteractionModel
  deriving DecidableEq, Repr

/-- `GET /auth/login` (`getLogin`): throws
`OidcBadRequestException(unauthorized_client, client_id)` when the session
has no interaction or the interaction has no client; otherwise renders the
login view from the session. -/
def getLogin (session : SessionState) : Except OidcError LoginView :=
  match session.interaction with
  | none => .error noClientFoundError
  | some i =>
    match i.client with
    | none => .error noClientFoundError
    | some _ =>
      .ok { email := session.email.getD "", password := session.password.getD ""
            postUri := "/auth/login", interaction := i }

/-- The data handed to the `register` view by `GET /auth/register`. -/
structure RegisterView where
  email : String
  password : String
  postUri : String
  interaction : Option InteractionModel
  deriving DecidableEq, Repr

/-- `GET /auth/register` (`getRegister`): renders the register view from
whatever the session holds; the handler performs no interaction check and
never throws, so the result is always `ok`. -/
def getRegister (session : SessionState) : Except OidcError RegisterView :=
  .ok { email := "@todo - from session and/or cookie"
        password := "@todo - from session and/or cookie"
        postUri := "/auth/register", interaction := session.interaction }

/-- The `UnauthorizedException` `postLogin` throws from its catch block:
category `mc.user_not_found`, with the caught error's message recorded in
`original_error`. -/
def userNotFoundError (e : String) : AuthError :=
  { category := "mc.user_not_found", message := "The user could not be found"
    original_error := some e }

/-- The `UnauthorizedException` `postLogin` throws when the session holds no
interaction (or no `response_type`): category `mc.invalid_session`. -/
def invalidSessionError : AuthError :=
  { category := "mc.invalid_session", message := "The session could not be found"
    original_error := none }

/-- The state/nonce echo at the end of issuance (controller lines 397-398):
each is copied onto the response only when truthy on the interaction. -/
def echoStateNonce (i : InteractionModel) (lr : LoginResponseDto) :
    LoginResponseDto :=
  let lr := if jsTruthy i.state then { lr with state := i.state } else lr
  if jsTruthy i.nonce then { lr with nonce := i.nonce } else lr

/-- Issuance step 3 (controller lines 392-395): when `token` is requested,
mint an access token via the signer and record it on both the response and
the interaction; a signer error aborts issuance with the interaction as
mutated so far.  Ends with the state/nonce echo. -/
def issueAccessToken (svc : ExternalServices) (user : Account)
    (response_type : List ResponseTypeEnum) (i : InteractionModel)
    (lr : LoginResponseDto) : InteractionModel × Except String LoginResponseDto :=
  if response_type.contains ResponseTypeEnum.token then
    match svc.createAccessToken user i.client with
    | .error e => (i, .error e)
    | .ok t =>
      let i := { i with access_token := some t }
      (i, .ok (echoStateNonce i { lr with access_token := some t }))
  else
    (i, .ok (echoStateNonce i lr))

/-- Issuance step 2 (controller lines 381-391): when `id_token` is requested,
mint an ID token via the signer bound to user, client and scope, and record
it on both the response and the interaction; a signer error is rethrown
as-is, leaving the interaction as mutated so far. -/
def issueIdToken (svc : ExternalServices) (user : Account)
    (response_type : List ResponseTypeEnum) (i : InteractionModel)
    (lr : LoginResponseDto) : InteractionModel × Except String LoginResponseDto :=
  if response_type.contains ResponseTypeEnum.id_token then
    match svc.createIdToken user i.client i.scope with
    | .error e => (i, .error e)
    | .ok t =>
      issueAccessToken svc user response_type { i with id_token := some t }
        { lr with id_token := some t }
  else
    issueAccessToken svc user response_type i lr

/-- Token issuance (controller lines 376-398), evaluated in the fixed order
code, id_token, token: when `code` is requested a fresh opaque code
(`uuidv4`, passed in as `freshCode`) is recorded on both the response and the
interaction, then the signer-backed steps run.  Returns the interaction as
mutated so far together with the response or the first signer error. -/
def issueTokens (svc : ExternalServices) (freshCode : String) (user : Account)
    (response_type : List ResponseTypeEnum) (i : InteractionModel) :
    InteractionModel × Except String LoginResponseDto :=
  if response_type.contains ResponseTypeEnum.code then
    issueIdToken svc user response_type { i with code := some freshCode }
      { code := some freshCode }
  else
    issueIdToken svc user response_type i {}

/-- One `if(x) append(k, x)` step of the redirect assembly: the parameter is
appended only when the field is truthy. -/
def pushParam (ps : List (String × String)) (key : String) (v : Option String) :
    List (String × String) :=
  match v with
  | none => ps
  | some s => if s == "" then ps else ps ++ [(key, s)]

/-- Serialization of appended query parameters, as `URLSearchParams` renders
them: `k=v` pairs joined by `&`. -/
def joinParams : List (String × String) → String
  | [] => ""
  | [kv] => kv.1 ++ "=" ++ kv.2
  | kv :: rest => kv.1 ++ "=" ++ kv.2 ++ "&" ++ joinParams rest

/-- `new URL(base)` plus appended search parameters, read back via `href`,
for a well-formed absolute base URL that carries no query or fragment of its
own and parameter values that need no percent-encoding (the codes and tokens
the controller appends are UUIDs and JWTs): with no parameters the URL is
unchanged, otherwise `?` plus the serialized parameters is appended. -/
def addQueryParams (base : String) : List (String × String) → String
  | [] => base
  | ps => base ++ "?" ++ joinParams ps

/-- The redirect assembly of `postLogin` (controller lines 403-409): each
truthy response field is appended as a query parameter in the order code,
access_token, id_token, state, nonce. -/
def buildRedirectUrl (redirect_uri : String) (lr : LoginResponseDto) : String :=
  let ps : List (String × String) := []
  let ps := pushParam ps "code" lr.code
  let ps := pushParam ps "access_token" lr.access_token
  let ps := pushParam ps "id_token" lr.id_token
  let ps := pushParam ps "state" lr.state
  let ps := pushParam ps "nonce" lr.nonce
  addQueryParams redirect_uri ps

/-- `POST /auth/login` (`postLogin`): requires an interaction with a
`response_type` on the session (else `invalidSessionError`); with a truthy
email it stores the submitted credentials on the session, verifies them, runs
token issuance and redirects to the assembled URL.  Everything inside the
`try` — credential check, signing, redirect — that throws is converted by the
single catch block into `userNotFoundError` carrying the cause's message; a
falsy email falls through with no outcome.  Returns the session left behind
(including mutations made before a throw) and the outcome. -/
def postLogin (svc : ExternalServices) (freshCode : String) (loginDto : LoginDto)
    (session : SessionState) : SessionState × Except AuthError (Option String) :=
  match session.interaction with
  | some i =>
    match i.response_type with
    | some response_type =>
      if jsTruthy loginDto.email then
        let session := { session with email := loginDto.email, password := loginDto.password }
        match svc.loginWithEmail (loginDto.email.getD "") (loginDto.password.getD "") with
        | .error e => (session, .error (userNotFoundError e))
        | .ok user =>
          match issueTokens svc freshCode user response_type i with
          | (i2, .error e) =>
            ({ session with interaction := some i2 }, .error (userNotFoundError e))
          | (i2, .ok lr) =>
            ({ session with interaction := some i2 },
              .ok (some (buildRedirectUrl i2.redirect_uri lr)))
      else
        (session, .ok none)
    | none => (session, .error invalidSessionError)
  | none => (session, .error invalidSessionError)

/-- One field of the spec's "present fields" reading: the query parameter a
grant field contributes when present (truthy), and nothing when absent. -/
def presentField (k : String) (v : Option String) : List (String × String) :=
  match v with
  | none => []
  | some s => if s == "" then [] else [(k, s)]

/-- Modelled from the spec: the present fields of a GrantResult — "Appends
each present field of GrantResult (code, access_token, id_token, state,
nonce) as a query parameter ... No parameter is added for an absent field."
Used to compare the source's redirect assembly against the spec's wording. -/
def presentGrantFields (lr : LoginResponseDto) : List (String × String) :=
  presentField "code" lr.code ++ presentField "access_token" lr.access_token
    ++ presentField "id_token" lr.id_token ++ presentField "state" lr.state
    ++ presentField "nonce" lr.nonce

/-- A registered client used by the concrete witnesses. -/
def demoClient : Client :=
  { client_id := "client-1"
    redirect_uris := "https://a.example/cb,https://b.example/cb" }

/-- Collaborators that all succeed. -/
def svcOk : ExternalServices :=
  { findOne := fun _ => .ok (some demoClient)
    loginWithEmail := fun _ _ => .ok "user-1"
    createIdToken := fun _ _ _ => .ok "idtok"
    createAccessToken := fun _ _ => .ok "acctok" }

/-- Collaborators whose ID-token signing fails. -/
def svcSignFail : ExternalServices :=
  { svcOk with createIdToken := fun _ _ _ => .error "signer down" }

/-- Collaborators whose credential check fails. -/
def svcLoginFail : ExternalServices :=
  { svcOk with loginWithEmail := fun _ _ => .error "wrong password" }

/-- Collaborators whose client lookup throws. -/
def svcLookupError : ExternalServices :=
  { svcOk with findOne := fun _ => .error "registry down" }

/-- Collaborators whose client lookup returns nothing. -/
def svcNotFound : ExternalServices :=
  { svcOk with findOne := fun _ => .ok none }

/-- A valid authorization request for `demoClient`. -/
def demoParams : GetAuthParams :=
  { client_id := "client-1", redirect_uri := "https://a.example/cb"
    scope := ["openid"], response_type := [ResponseTypeEnum.code] }

/-- A pending interaction for `demoClient` with the given response types. -/
def demoInteractionRT (rt : List ResponseTypeEnum) : InteractionModel :=
  { emptyInteraction with
      loginAttempts := 1
      client := some demoClient
      client_id := "client-1"
      redirect_uri := "https://a.example/cb"
      scope := ["openid"]
      response_type := some rt }

/-- A session holding `demoInteractionRT rt`. -/
def demoSession (rt : List ResponseTypeEnum) : SessionState :=
  { interaction := some (demoInteractionRT rt) }

/-- A login submission with credentials. -/
def demoLogin : LoginDto :=
  { email := some "user@example.com", password := some "pw" }

/-- Claim C1: the spec says a new authorization request on a session that
already holds an interaction increments the login-attempt counter, and
initializes it to 1 otherwise.  The code stores the value of the
post-increment `loginAttempts++` — the old counter — into the fresh
interaction object, so a second request leaves the counter at 1 instead of
advancing it to 2; a fresh session does get 1.  This theorem evaluates the
handler at the failing input: two consecutive valid `GET /auth` requests on
the same session. -/
theorem C1_login_attempts_stay_at_one :
    ((getAuth svcOk none demoParams
        ((getAuth svcOk none demoParams {}).1)).1.interaction.map
      InteractionModel.loginAttempts = some 1)
    ∧ ((getAuth svcOk none demoParams {}).1.interaction.map
      InteractionModel.loginAttempts = some 1) := by
  constructor <;> decide

/-- Claim C2 (counterexample): the registration page render does not fail on
a session with no pending interaction — `getRegister` performs no interaction
check and succeeds on the empty session, refuting the claim that every
interaction-dependent endpoint fails without a prior valid authorization
request. -/
theorem C2_register_renders_without_interaction :
    exceptIsError (getRegister {}) = false := rfl

/-- Claim C2 (amended): when the session holds no pending interaction, the
login page render and the login submission fail with an error, but the
registration page render performs no such check and succeeds. -/
theorem C2_no_interaction_guards (s : SessionState) (svc : ExternalServices)
    (freshCode : String) (dto : LoginDto) (h : s.interaction = none) :
    exceptIsError (getLogin s) = true
    ∧ exceptIsError (postLogin svc freshCode dto s).2 = true
    ∧ exceptIsError (getRegister s) = false := by
  refine ⟨?_, ?_, rfl⟩
  · simp [getLogin, h, exceptIsError]
  · simp [postLogin, h, exceptIsError]

/-- Claim C2 (witness): the guards evaluated on the empty session. -/
theorem C2_no_interaction_guards_witness :
    exceptIsError (getLogin {}) = true
    ∧ exceptIsError (postLogin svcOk "code-1" demoLogin {}).2 = true
    ∧ exceptIsError (getRegister {}) = false :=
  C2_no_interaction_guards {} svcOk "code-1" demoLogin rfl

/-- Claim C7: client resolution fails with the identical
`unauthorized_client` error both when the registry lookup itself throws and
when it returns no client — the caller cannot tell a broken registry from an
unknown client. -/
theorem C7_lookup_error_equals_not_found (svc1 svc2 : ExternalServices)
    (ip1 ip2 : Option String) (p1 p2 : GetAuthParams) (s1 s2 : SessionState)
    (e : String) (h1 : svc1.findOne p1.client_id = .error e)
    (h2 : svc2.findOne p2.client_id = .ok none) :
    (getAuth svc1 ip1 p1 s1).2 = .error noClientFoundError
    ∧ (getAuth svc2 ip2 p2 s2).2 = .error noClientFoundError := by
  constructor
  · simp [getAuth, h1]
  · simp [getAuth, h2]

/-- Claim C7 (witness): a throwing registry and an empty registry produce the
same error on the demo request. -/
theorem C7_lookup_error_equals_not_found_witness :
    (getAuth svcLookupError none demoParams {}).2 = .error noClientFoundError
    ∧ (getAuth svcNotFound none demoParams {}).2 = .error noClientFoundError :=
  C7_lookup_error_equals_not_found svcLookupError svcNotFound none none
    demoParams demoParams {} {} "registry down" rfl rfl

/-- Claim C10: whenever `GET /auth` fails validation — lookup error, unknown
client, or unregistered redirect_uri — the handler throws before any session
mutation, so the session it leaves behind is exactly the session it was
given. -/
theorem C10_validation_errors_leave_session_unchanged (svc : ExternalServices)
    (ip : Option String) (p : GetAuthParams) (s : SessionState) (e : OidcError)
    (h : (getAuth svc ip p s).2 = .error e) :
    (getAuth svc ip p s).1 = s := by
  unfold getAuth at h ⊢
  rcases hf : svc.findOne p.client_id with m | oc
  · simp [hf]
  · rcases oc with _ | client
    · simp [hf]
    · simp only [hf] at h ⊢
      cases hj : jsTruthy ((jsSplitComma client.redirect_uris).find? fun uri => p.redirect_uri == uri)
      · simp [hj]
      · cases hb : p.prompt == some AuthPrompt.create <;> simp [hj, hb] at h

/-- Claim C10 (witness): a failing validation on a session that already holds
an interaction leaves that session untouched. -/
theorem C10_validation_errors_leave_session_unchanged_witness :
    (getAuth svcNotFound none demoParams (demoSession [ResponseTypeEnum.code])).1
      = demoSession [ResponseTypeEnum.code] :=
  C10_validation_errors_leave_session_unchanged svcNotFound none demoParams
    (demoSession [ResponseTypeEnum.code]) noClientFoundError rfl

/-- Claim C3 (counterexample): a completed grant — credential check succeeds
and the redirect to the client's redirect_uri is returned — leaves the
session's interaction in place (with the issued code recorded on it) instead
of destroying it. -/
theorem C3_interaction_survives_redirect :
    (postLogin svcOk "code-1" demoLogin (demoSession [ResponseTypeEnum.code])).2
      = .ok (some "https://a.example/cb?code=code-1")
    ∧ (postLogin svcOk "code-1" demoLogin
        (demoSession [ResponseTypeEnum.code])).1.interaction
      = some { demoInteractionRT [ResponseTypeEnum.code] with code := some "code-1" } := by
  constructor <;> rfl

/-- Claim C3 (amended): after a grant is completed and the redirect is
issued, the login submission handler does not clear the session's
interaction: the session it leaves behind still holds one. -/
theorem C3_interaction_not_cleared (svc : ExternalServices) (freshCode : String)
    (dto : LoginDto) (s : SessionState) (url : String)
    (h : (postLogin svc freshCode dto s).2 = .ok (some url)) :
    (postLogin svc freshCode dto s).1.interaction ≠ none := by
  unfold postLogin at h ⊢
  rcases hs : s.interaction with _ | i
  · simp [hs] at h
  · rcases hrt : i.response_type with _ | rt
    · simp [hs, hrt] at h
    · cases he : jsTruthy dto.email
      · simp [hs, hrt, he] at h
      · rcases hl : svc.loginWithEmail (dto.email.getD "") (dto.password.getD "") with e | u
        · simp [hs, hrt, he, hl] at h
        · rcases hi : issueTokens svc freshCode u rt i with ⟨i2, r⟩
          rcases r with e | lr
          · simp [hs, hrt, he, hl, hi] at h
          · simp [hs, hrt, he, hl, hi]

/-- Claim C3 (witness): the amended claim applied to the successful demo
grant. -/
theorem C3_interaction_not_cleared_witness :
    (postLogin svcOk "code-1" demoLogin
      (demoSession [ResponseTypeEnum.code])).1.interaction ≠ none :=
  C3_interaction_not_cleared svcOk "code-1" demoLogin
    (demoSession [ResponseTypeEnum.code]) "https://a.example/cb?code=code-1" rfl

/-- Claim C4 (counterexample): a signer failure during token issuance is not
surfaced as a distinct server-error category: it is converted by the
handler's catch block into the very same unauthorized error (category
`mc.user_not_found`, message "The user could not be found") that a credential
mismatch produces — the two runs differ only in the recorded cause. -/
theorem C4_signer_failure_same_category_as_credential_failure :
    (postLogin svcSignFail "code-1" demoLogin
        (demoSession [ResponseTypeEnum.id_token])).2
      = .error (userNotFoundError "signer down")
    ∧ (postLogin svcLoginFail "code-1" demoLogin
        (demoSession [ResponseTypeEnum.id_token])).2
      = .error (userNotFoundError "wrong password")
    ∧ (userNotFoundError "signer down").category
      = (userNotFoundError "wrong password").category := by
  refine ⟨rfl, rfl, rfl⟩

/-- Claim C4 (amended): a Token Signer failure while minting the id_token in
the login submission handler is caught by the same catch block as credential
failures and surfaced as the identical unauthorized error — category
`mc.user_not_found`, message "The user could not be found" — with the
signer's message carried only in `original_error`; no distinct server-error
category exists. -/
theorem C4_signer_failure_as_unauthorized (svc : ExternalServices)
    (freshCode : String) (dto : LoginDto) (s : SessionState)
    (i : InteractionModel) (rt : List ResponseTypeEnum) (u : Account)
    (m : String) (hs : s.interaction = some i) (hrt : i.response_type = some rt)
    (he : jsTruthy dto.email = true)
    (hl : svc.loginWithEmail (dto.email.getD "") (dto.password.getD "") = .ok u)
    (hid : ResponseTypeEnum.id_token ∈ rt)
    (hsig : svc.createIdToken u i.client i.scope = .error m) :
    (postLogin svc freshCode dto s).2 = .error (userNotFoundError m) := by
  by_cases hc : ResponseTypeEnum.code ∈ rt
  · simp [postLogin, issueTokens, issueIdToken, hs, hrt, he, hl, hc, hid, hsig]
  · simp [postLogin, issueTokens, issueIdToken, hs, hrt, he, hl, hc, hid, hsig]

/-- Claim C4 (witness): the amended claim applied to the failing-signer demo
run. -/
theorem C4_signer_failure_as_unauthorized_witness :
    (postLogin svcSignFail "code-1" demoLogin
      (demoSession [ResponseTypeEnum.id_token])).2
      = .error (userNotFoundError "signer down") :=
  C4_signer_failure_as_unauthorized svcSignFail "code-1" demoLogin
    (demoSession [ResponseTypeEnum.id_token])
    (demoInteractionRT [ResponseTypeEnum.id_token]) [ResponseTypeEnum.id_token]
    "user-1" "signer down" rfl rfl rfl rfl (by decide) rfl

/-- Claim C5: with a response_type set containing both `code` and
`id_token`, a signer failure while producing the id_token propagates as an
error (carrying the signer's message), while the code minted by the earlier
step stays recorded on the session's interaction — issuance evaluates
members in the fixed order code, id_token, token, and nothing is rolled
back. -/
theorem C5_code_survives_id_token_failure (svc : ExternalServices)
    (freshCode : String) (dto : LoginDto) (s : SessionState)
    (i : InteractionModel) (rt : List ResponseTypeEnum) (u : Account)
    (m : String) (hs : s.interaction = some i) (hrt : i.response_type = some rt)
    (he : jsTruthy dto.email = true)
    (hl : svc.loginWithEmail (dto.email.getD "") (dto.password.getD "") = .ok u)
    (hcode : ResponseTypeEnum.code ∈ rt)
    (hid : ResponseTypeEnum.id_token ∈ rt)
    (hsig : svc.createIdToken u i.client i.scope = .error m) :
    (postLogin svc freshCode dto s).1.interaction
      = some { i with code := some freshCode }
    ∧ (postLogin svc freshCode dto s).2 = .error (userNotFoundError m) := by
  constructor <;>
    simp [postLogin, issueTokens, issueIdToken, hs, hrt, he, hl, hcode, hid, hsig]

/-- Claim C5 (witness): the failing-signer hybrid demo run — the error
propagates and the code is still on the interaction. -/
theorem C5_code_survives_id_token_failure_witness :
    (postLogin svcSignFail "code-1" demoLogin
      (demoSession [ResponseTypeEnum.code, ResponseTypeEnum.id_token])).1.interaction
      = some { demoInteractionRT [ResponseTypeEnum.code, ResponseTypeEnum.id_token]
                 with code := some "code-1" }
    ∧ (postLogin svcSignFail "code-1" demoLogin
        (demoSession [ResponseTypeEnum.code, ResponseTypeEnum.id_token])).2
      = .error (userNotFoundError "signer down") :=
  C5_code_survives_id_token_failure svcSignFail "code-1" demoLogin
    (demoSession [ResponseTypeEnum.code, ResponseTypeEnum.id_token])
    (demoInteractionRT [ResponseTypeEnum.code, ResponseTypeEnum.id_token])
    [ResponseTypeEnum.code, ResponseTypeEnum.id_token]
    "user-1" "signer down" rfl rfl rfl rfl (by decide) (by decide) rfl

/-- Claim C6: once the client is resolved, the authorization request is
accepted only when its redirect_uri is byte-identical to some member of the
client's registered redirect-URI set (the comma-split `redirect_uris`
string); any redirect_uri outside that set — trailing-slash or scheme
variants, or anything at all when the registered string is empty or
malformed — is rejected with `invalid_request` naming the redirect_uri
parameter. -/
theorem C6_redirect_uri_exact_match (svc : ExternalServices)
    (ip : Option String) (p : GetAuthParams) (s : SessionState)
    (client : Client) (hfind : svc.findOne p.client_id = .ok (some client)) :
    (∀ url, (getAuth svc ip p s).2 = .ok url →
      p.redirect_uri ∈ jsSplitComma client.redirect_uris)
    ∧ (p.redirect_uri ∉ jsSplitComma client.redirect_uris →
      (getAuth svc ip p s).2 = .error invalidRedirectUriError) := by
  constructor
  · intro url h
    rcases hf : (jsSplitComma client.redirect_uris).find?
        (fun uri => p.redirect_uri == uri) with _ | u
    · exfalso
      simp [getAuth, hfind, hf, jsTruthy] at h
    · have hm := List.mem_of_find?_eq_some hf
      have hp : (p.redirect_uri == u) = true := List.find?_some hf
      have he : p.redirect_uri = u := by simpa using hp
      rw [he]
      exact hm
  · intro hnot
    have hf : (jsSplitComma client.redirect_uris).find?
        (fun uri => p.redirect_uri == uri) = none := by
      rw [List.find?_eq_none]
      intro x hx hbeq
      have hex : p.redirect_uri = x := by simpa using hbeq
      exact hnot (hex ▸ hx)
    simp [getAuth, hfind, hf, jsTruthy]

/-- Claim C6 (witness): the unregistered redirect_uri
"https://app.example/cb" is rejected with `invalid_request`/redirect_uri for
the demo client. -/
theorem C6_redirect_uri_exact_match_witness :
    (getAuth svcOk none { demoParams with redirect_uri := "https://app.example/cb" } {}).2
      = .error invalidRedirectUriError :=
  (C6_redirect_uri_exact_match svcOk none
      { demoParams with redirect_uri := "https://app.example/cb" } {} demoClient
      rfl).2 (by decide)

/-- Claim C8: for a successful authentication with a working signer, the
grant result contains a code iff `code` is in the response_type set, an
id_token iff `id_token` is in the set, an access_token iff `token` is in the
set, and state and nonce are echoed exactly when (truthily) present on the
interaction, never fabricated — in particular for response_type = {code} it
carries only the code plus any present state/nonce. -/
theorem C8_grant_matches_response_type (svc : ExternalServices)
    (freshCode : String) (u : Account) (rt : List ResponseTypeEnum)
    (i : InteractionModel) (tid tac : String)
    (hid : svc.createIdToken u i.client i.scope = .ok tid)
    (hac : svc.createAccessToken u i.client = .ok tac) :
    (issueTokens svc freshCode u rt i).2 = .ok
      { code := if ResponseTypeEnum.code ∈ rt then some freshCode else none
        id_token := if ResponseTypeEnum.id_token ∈ rt then some tid else none
        access_token := if ResponseTypeEnum.token ∈ rt then some tac else none
        state := if jsTruthy i.state then i.state else none
        nonce := if jsTruthy i.nonce then i.nonce else none } := by
  by_cases hc : ResponseTypeEnum.code ∈ rt <;>
    by_cases hi : ResponseTypeEnum.id_token ∈ rt <;>
      by_cases ht : ResponseTypeEnum.token ∈ rt <;>
        by_cases hst : jsTruthy i.state <;>
          by_cases hn : jsTruthy i.nonce <;>
            simp [issueTokens, issueIdToken, issueAccessToken, echoStateNonce,
              hc, hi, ht, hst, hn, hid, hac]

/-- Claim C8 (witness): the hybrid demo grant carries all three artifacts and
no state/nonce. -/
theorem C8_grant_matches_response_type_witness :
    (issueTokens svcOk "code-1" "user-1"
        [ResponseTypeEnum.code, ResponseTypeEnum.id_token, ResponseTypeEnum.token]
        (demoInteractionRT [])).2 = .ok
      { code := some "code-1", id_token := some "idtok"
        access_token := some "acctok", state := none, nonce := none } :=
  C8_grant_matches_response_type svcOk "code-1" "user-1"
    [ResponseTypeEnum.code, ResponseTypeEnum.id_token, ResponseTypeEnum.token]
    (demoInteractionRT []) "idtok" "acctok" rfl rfl

/-- Each `if(x) append(k, x)` step appends exactly the field's contribution
under the spec's present-fields reading. -/
theorem pushParam_appends_presentField (ps : List (String × String))
    (k : String) (v : Option String) :
    pushParam ps k v = ps ++ presentField k v := by
  cases v with
  | none => simp [pushParam, presentField]
  | some s => by_cases hs : s == "" <;> simp [pushParam, presentField, hs]

/-- Claim C9: redirect assembly appends exactly the (truthily) present fields
of the grant result as query parameters in the order code, access_token,
id_token, state, nonce — no parameter is added for an absent field — and for
a grant that carries only a code the final URL is the redirect_uri followed
by "?code=" and the code, with no other parameters. -/
theorem C9_redirect_appends_present_fields (uri c : String)
    (lr : LoginResponseDto) (hc : c ≠ "") :
    buildRedirectUrl uri lr = addQueryParams uri (presentGrantFields lr)
    ∧ buildRedirectUrl uri { code := some c } = uri ++ "?code=" ++ c := by
  constructor
  · simp only [buildRedirectUrl, presentGrantFields, pushParam_appends_presentField,
      List.nil_append, List.append_assoc]
  · have hc2 : (c == "") = false := by simpa using hc
    have h4 : ∀ a b d e : String, a ++ b ++ (d ++ e) = a ++ (b ++ d) ++ e := by
      intro a b d e
      simp [String.append_assoc]
    calc buildRedirectUrl uri { code := some c }
        = uri ++ "?" ++ ("code" ++ "=" ++ c) := by
          simp [buildRedirectUrl, pushParam, hc2, addQueryParams, joinParams]
      _ = uri ++ "?code=" ++ c := h4 uri "?" "code=" c

/-- Claim C9 (witness): the code-only demo grant redirects to exactly
`redirect_uri + "?code=" + code`. -/
theorem C9_redirect_appends_present_fields_witness :
    buildRedirectUrl "https://a.example/cb" { code := some "code-1" }
      = "https://a.example/cb" ++ "?code=" ++ "code-1" :=
  (C9_redirect_appends_present_fields "https://a.example/cb" "code-1"
    { code := some "code-1" } (by decide)).2
